import Mathlib

/-!
Verification of the Helix clips module (`src/API/Helix/Clips/HelixClipsAPI.ts`)
of the `twitch` TypeScript client library against its specification.

The module is a thin facade: it shapes query parameters, performs a single
HTTP call through the shared dispatcher (`this._client.apiCall`), and maps
the JSON response into wrapped objects.  We embed it shallowly: the
dispatcher is an injected function returning `Except`, every operation
returns the list of requests it issued together with its result, and query
objects are association lists from string keys to query values.
-/

namespace TwitchClips

/-- Embedding of a value stored in a `query` object literal: a string, an
array of strings, a number, or the absent/`undefined` value. -/
inductive QueryValue where
  | str (s : String)
  | strs (l : List String)
  | nat (n : Nat)
  | undef
deriving DecidableEq, Repr

/-- An optional string field of a query literal (`after`, `before`):
`undefined` when absent. -/
def optStrToVal : Option String → QueryValue
  | none => QueryValue.undef
  | some s => QueryValue.str s

/-- An optional numeric field of a query literal (`first: limit`):
`undefined` when absent. -/
def optNatToVal : Option Nat → QueryValue
  | none => QueryValue.undef
  | some n => QueryValue.nat n

/-- A query object: keys with their values, in literal order. -/
def Query := List (String × QueryValue)

/-- Reading a key of a query object (first binding wins, as in a JS object
literal without duplicate keys). -/
def queryLookup (q : List (String × QueryValue)) (k : String) : Option QueryValue :=
  (q.find? (fun p => p.1 == k)).map Prod.snd

/-- `TwitchApiCallType` from `TwitchClient.ts` (not under src/); the clips
module only uses `Helix`. -/
inductive TwitchApiCallType where
  | Kraken
  | Helix
  | Custom
deriving DecidableEq, Repr

/-- The options record handed to the shared dispatcher `apiCall`. -/
structure TwitchApiCallOptions where
  type : TwitchApiCallType
  url : String
  method : String
  scope : Option String := none
  query : List (String × QueryValue)

/-- `HelixClipFilterType = 'broadcaster_id' | 'game_id' | 'id'`. -/
inductive HelixClipFilterType where
  | broadcaster_id
  | game_id
  | id
deriving DecidableEq, Repr

/-- The string a `HelixClipFilterType` value denotes; used as the computed
query key `[filterType]`. -/
def filterTypeKey : HelixClipFilterType → String
  | HelixClipFilterType.broadcaster_id => "broadcaster_id"
  | HelixClipFilterType.game_id => "game_id"
  | HelixClipFilterType.id => "id"

/-- Modelled from the spec: `HelixPagination` (its file is not under src/)
holds the pagination cursors (before/after) and a result-count limit, all
optional. -/
structure HelixPagination where
  after : Option String := none
  before : Option String := none
  limit : Option Nat := none
deriving DecidableEq, Repr

/-- `HelixClipFilter`: pagination plus the filter discriminator and the IDs
to filter for. -/
structure HelixClipFilter extends HelixPagination where
  filterType : HelixClipFilterType
  ids : List String
deriving DecidableEq, Repr

/-- Parameters for creating a clip (`HelixClipCreateParams`); the optional
`createAfterDelay` flag is `none` when the caller omits it. -/
structure HelixClipCreateParams where
  channelId : String
  createAfterDelay : Option Bool := none
deriving DecidableEq, Repr

/-- Modelled from the spec: the opaque clip record DTO (`HelixClipData`,
whose file `HelixClip.ts` is not under src/), an uninterpreted payload. -/
structure HelixClipData where
  raw : String
deriving DecidableEq, Repr

/-- Modelled from the spec: the `pagination` part of a Helix response
(`HelixResponse.ts` is not under src/), holding the continuation cursor. -/
structure HelixPaginationData where
  cursor : Option String
deriving DecidableEq, Repr

/-- Modelled from the spec: `HelixResponse<T>` (its file is not under src/):
the data payload together with pagination. -/
structure HelixResponse (α : Type) where
  data : α
  pagination : HelixPaginationData
deriving DecidableEq, Repr

/-- `HelixClipCreateResponse`: one element of the create-clip response. -/
structure HelixClipCreateResponse where
  id : String
  edit_url : String
deriving DecidableEq, Repr

/-- The create-clip dispatcher response `{ data: [HelixClipCreateResponse] }`.
The TypeScript annotation is a one-element tuple type, but the runtime JSON
array can have any length, so the embedding uses a list. -/
structure HelixClipCreateResult where
  data : List HelixClipCreateResponse
deriving DecidableEq, Repr

/-- Modelled from the spec: the shared HTTP dispatcher (`TwitchClient.ts` is
not under src/).  `apiCall<T>` is generic; we give it at the two response
types this module instantiates it with.  `ε` is the type of errors the
dispatcher surfaces (network failure, non-2xx status, rate limits). -/
structure TwitchClient (ε : Type) where
  apiCallClips : TwitchApiCallOptions → Except ε (HelixResponse (List HelixClipData))
  apiCallCreateClip : TwitchApiCallOptions → Except ε HelixClipCreateResult

/-- A wrapped clip object (`HelixClip`): the unchanged record data plus a
reference to the calling client. -/
structure HelixClip (ε : Type) where
  data : HelixClipData
  client : TwitchClient ε

/-- `HelixPaginatedResult<HelixClip[]>`: the wrapped records plus the
continuation cursor. -/
structure HelixPaginatedResult (ε : Type) where
  data : List (HelixClip ε)
  cursor : Option String

/-- An error surfaced by a clips operation: either the dispatcher's own
error, propagated, or the runtime TypeError raised by reading `.id` off
`result.data[0]` when the data array is empty. -/
inductive ClipCallError (ε : Type) where
  | dispatch (e : ε)
  | typeError
deriving DecidableEq, Repr

/-- The request object `getClips` builds:
`{ type: Helix, url: 'clips', method: 'GET',
   query: { [filterType]: ids, after, before, first: limit } }`. -/
def getClipsRequest (params : HelixClipFilter) : TwitchApiCallOptions :=
  { type := TwitchApiCallType.Helix
    url := "clips"
    method := "GET"
    scope := none
    query := [(filterTypeKey params.filterType, QueryValue.strs params.ids),
              ("after", optStrToVal params.after),
              ("before", optStrToVal params.before),
              ("first", optNatToVal params.limit)] }

/-- `getClips`: one dispatcher call with the built request; on success the
response data is mapped elementwise into `HelixClip` wrappers and returned
with the cursor from `result.pagination.cursor`.  The first component is the
list of requests issued, in order. -/
def getClips {ε : Type} (c : TwitchClient ε) (params : HelixClipFilter) :
    List TwitchApiCallOptions × Except (ClipCallError ε) (HelixPaginatedResult ε) :=
  let req := getClipsRequest params
  ([req],
    match c.apiCallClips req with
    | Except.error e => Except.error (ClipCallError.dispatch e)
    | Except.ok result =>
        Except.ok { data := result.data.map (fun data => HelixClip.mk data c)
                    cursor := result.pagination.cursor })

/-- `getClipsForBroadcaster(id, pagination)` forwards to `getClips` with
`{...pagination, filterType: 'broadcaster_id', ids: [id]}`. -/
def getClipsForBroadcaster {ε : Type} (c : TwitchClient ε) (id : String)
    (pagination : HelixPagination) :
    List TwitchApiCallOptions × Except (ClipCallError ε) (HelixPaginatedResult ε) :=
  getClips c { toHelixPagination := pagination
               filterType := HelixClipFilterType.broadcaster_id
               ids := [id] }

/-- `getClipsForGame(id, pagination)` forwards to `getClips` with
`{...pagination, filterType: 'game_id', ids: [id]}`. -/
def getClipsForGame {ε : Type} (c : TwitchClient ε) (id : String)
    (pagination : HelixPagination) :
    List TwitchApiCallOptions × Except (ClipCallError ε) (HelixPaginatedResult ε) :=
  getClips c { toHelixPagination := pagination
               filterType := HelixClipFilterType.game_id
               ids := [id] }

/-- `getClipsByIds(ids)` forwards to `getClips` with
`{filterType: 'id', ids}` and no pagination fields. -/
def getClipsByIds {ε : Type} (c : TwitchClient ε) (ids : List String) :
    List TwitchApiCallOptions × Except (ClipCallError ε) (HelixPaginatedResult ε) :=
  getClips c { filterType := HelixClipFilterType.id
               ids := ids }

/-- The request object `createClip` builds:
`{ type: Helix, url: 'clips', method: 'POST', scope: 'clips:edit',
   query: { broadcaster_id: channelId, has_delay: createAfterDelay.toString() } }`
with `createAfterDelay` defaulted to `false` when omitted. -/
def createClipRequest (params : HelixClipCreateParams) : TwitchApiCallOptions :=
  let createAfterDelay := params.createAfterDelay.getD false
  { type := TwitchApiCallType.Helix
    url := "clips"
    method := "POST"
    scope := some "clips:edit"
    query := [("broadcaster_id", QueryValue.str params.channelId),
              ("has_delay", QueryValue.str (toString createAfterDelay))] }

/-- `createClip`: one dispatcher POST call; returns `result.data[0].id`.
The index is unguarded in the source, so an empty data array yields the
runtime TypeError, embedded as `ClipCallError.typeError`. -/
def createClip {ε : Type} (c : TwitchClient ε) (params : HelixClipCreateParams) :
    List TwitchApiCallOptions × Except (ClipCallError ε) String :=
  let req := createClipRequest params
  ([req],
    match c.apiCallCreateClip req with
    | Except.error e => Except.error (ClipCallError.dispatch e)
    | Except.ok result =>
        match result.data[0]? with
        | some r => Except.ok r.id
        | none => Except.error ClipCallError.typeError)

/-- Number of filter-dimension keys (`broadcaster_id`, `game_id`, `id`)
occurring in a query object. -/
def filterKeyCount (q : List (String × QueryValue)) : Nat :=
  q.countP (fun p => p.1 == "broadcaster_id" || p.1 == "game_id" || p.1 == "id")

/-! Concrete sample data, used to evaluate the theorems on closed inputs. -/

/-- A concrete clips response with two records and a cursor. -/
def sampleResp : HelixResponse (List HelixClipData) :=
  { data := [{ raw := "r0" }, { raw := "r1" }]
    pagination := { cursor := some "cur0" } }

/-- A concrete create-clip response element. -/
def sampleCreateResponse : HelixClipCreateResponse :=
  { id := "clip-1", edit_url := "https://clips.example/edit/clip-1" }

/-- A client whose dispatcher always succeeds with the sample responses. -/
def sampleClient : TwitchClient String :=
  { apiCallClips := fun _ => Except.ok sampleResp
    apiCallCreateClip := fun _ => Except.ok { data := [sampleCreateResponse] } }

/-- A client whose create-clip dispatcher succeeds with an empty data array. -/
def emptyDataClient : TwitchClient String :=
  { apiCallClips := fun _ => Except.ok sampleResp
    apiCallCreateClip := fun _ => Except.ok { data := [] } }

/-- A client whose dispatcher always fails. -/
def errClient : TwitchClient String :=
  { apiCallClips := fun _ => Except.error "boom"
    apiCallCreateClip := fun _ => Except.error "boom" }

/-- A concrete clip filter. -/
def sampleFilter : HelixClipFilter :=
  { after := some "cur-prev", limit := some 5
    filterType := HelixClipFilterType.broadcaster_id
    ids := ["125328655"] }

/-- Concrete create-clip parameters with `createAfterDelay` omitted. -/
def sampleCreateParams : HelixClipCreateParams :=
  { channelId := "125328655" }

/-- Claim C1: the filter-type discriminator maps to the correct single query
key: `getClips` places the ids array under exactly the key equal to
`params.filterType`, and each request issued by `getClipsForBroadcaster`,
`getClipsForGame` and `getClipsByIds` carries its IDs under
`broadcaster_id`, `game_id` and `id` respectively. -/
theorem filter_key_discriminator {ε : Type} (c : TwitchClient ε)
    (bid gid : String) (p q : HelixPagination) (cids : List String)
    (params : HelixClipFilter) :
    queryLookup (getClipsRequest params).query (filterTypeKey params.filterType)
      = some (QueryValue.strs params.ids)
    ∧ ((getClipsRequest params).query.countP
        (fun kv => kv.1 == filterTypeKey params.filterType)) = 1
    ∧ ((getClipsForBroadcaster c bid p).1.map
        (fun r => queryLookup r.query "broadcaster_id"))
      = [some (QueryValue.strs [bid])]
    ∧ ((getClipsForGame c gid q).1.map
        (fun r => queryLookup r.query "game_id"))
      = [some (QueryValue.strs [gid])]
    ∧ ((getClipsByIds c cids).1.map
        (fun r => queryLookup r.query "id"))
      = [some (QueryValue.strs cids)] := by
  obtain ⟨⟨a, b, l⟩, ft, ids⟩ := params
  cases ft <;> exact ⟨rfl, rfl, rfl, rfl, rfl⟩

/-- Claim C3: pagination parameters pass through unchanged into the request
built by `getClips`: the query's `after` field is `params.after`, `before`
is `params.before`, and `params.limit` is sent unchanged as `first`. -/
theorem pagination_passthrough (params : HelixClipFilter) :
    queryLookup (getClipsRequest params).query "after"
      = some (optStrToVal params.after)
    ∧ queryLookup (getClipsRequest params).query "before"
      = some (optStrToVal params.before)
    ∧ queryLookup (getClipsRequest params).query "first"
      = some (optNatToVal params.limit) := by
  obtain ⟨⟨a, b, l⟩, ft, ids⟩ := params
  cases ft <;> exact ⟨rfl, rfl, rfl⟩

/-- Claim C4: exactly one filter dimension is populated per request: every
request built by `getClips` — including through the three convenience
methods — contains exactly one of the keys `broadcaster_id`, `game_id`,
`id`, never two or more. -/
theorem exactly_one_filter_dimension {ε : Type} (c : TwitchClient ε)
    (bid gid : String) (p q : HelixPagination) (cids : List String)
    (params : HelixClipFilter) :
    ((getClips c params).1.map (fun r => filterKeyCount r.query)) = [1]
    ∧ ((getClipsForBroadcaster c bid p).1.map (fun r => filterKeyCount r.query)) = [1]
    ∧ ((getClipsForGame c gid q).1.map (fun r => filterKeyCount r.query)) = [1]
    ∧ ((getClipsByIds c cids).1.map (fun r => filterKeyCount r.query)) = [1] := by
  obtain ⟨⟨a, b, l⟩, ft, ids⟩ := params
  cases ft <;> exact ⟨rfl, rfl, rfl, rfl⟩

/-- Claim C5: each specialized listing operation merely fixes the filter-type
discriminator and forwards to `getClips`:
`getClipsForBroadcaster(id, p) = getClips({...p, filterType: broadcaster_id, ids: [id]})`,
`getClipsForGame(id, p) = getClips({...p, filterType: game_id, ids: [id]})`, and
`getClipsByIds(ids) = getClips({filterType: id, ids})` (pagination absent). -/
theorem convenience_methods_forward {ε : Type} (c : TwitchClient ε)
    (bid gid : String) (p q : HelixPagination) (cids : List String) :
    getClipsForBroadcaster c bid p
      = getClips c { toHelixPagination := p
                     filterType := HelixClipFilterType.broadcaster_id
                     ids := [bid] }
    ∧ getClipsForGame c gid q
      = getClips c { toHelixPagination := q
                     filterType := HelixClipFilterType.game_id
                     ids := [gid] }
    ∧ getClipsByIds c cids
      = getClips c { after := none, before := none, limit := none
                     filterType := HelixClipFilterType.id
                     ids := cids } :=
  ⟨rfl, rfl, rfl⟩

/-- Claim C2: `createClip` returns exactly the identifier of the first
element of the single-element data array of the dispatcher's response. -/
theorem createClip_returns_first_id {ε : Type} (c : TwitchClient ε)
    (params : HelixClipCreateParams) (r : HelixClipCreateResponse)
    (h : c.apiCallCreateClip (createClipRequest params) = Except.ok ⟨[r]⟩) :
    (createClip c params).2 = Except.ok r.id := by
  simp only [createClip, h]
  rfl

/-- Evaluation of `createClip_returns_first_id` on a concrete client and
concrete parameters. -/
theorem createClip_returns_first_id_witness :
    sampleClient.apiCallCreateClip (createClipRequest sampleCreateParams)
      = Except.ok ⟨[sampleCreateResponse]⟩
    ∧ (createClip sampleClient sampleCreateParams).2
      = Except.ok sampleCreateResponse.id :=
  ⟨rfl, createClip_returns_first_id sampleClient sampleCreateParams
          sampleCreateResponse rfl⟩

/-- Claim C6: `getClips` performs exactly one outbound GET request, and on a
successful dispatch returns the response's data array mapped elementwise
(hence length- and order-preserving) into `HelixClip` wrappers holding the
unchanged record and the calling client, with the cursor taken unchanged
from `pagination.cursor`. -/
theorem getClips_single_get_mapping {ε : Type} (c : TwitchClient ε)
    (params : HelixClipFilter) (resp : HelixResponse (List HelixClipData))
    (h : c.apiCallClips (getClipsRequest params) = Except.ok resp) :
    (getClips c params).1 = [getClipsRequest params]
    ∧ (getClipsRequest params).method = "GET"
    ∧ (getClips c params).2
      = Except.ok { data := resp.data.map (fun d => HelixClip.mk d c)
                    cursor := resp.pagination.cursor }
    ∧ (resp.data.map (fun d => HelixClip.mk d c)).length = resp.data.length := by
  refine ⟨rfl, rfl, ?_, List.length_map _ _⟩
  simp only [getClips, h]

/-- Evaluation of `getClips_single_get_mapping` on a concrete client and
filter. -/
theorem getClips_single_get_mapping_witness :
    sampleClient.apiCallClips (getClipsRequest sampleFilter) = Except.ok sampleResp
    ∧ ((getClips sampleClient sampleFilter).1 = [getClipsRequest sampleFilter]
       ∧ (getClipsRequest sampleFilter).method = "GET"
       ∧ (getClips sampleClient sampleFilter).2
         = Except.ok { data := sampleResp.data.map
                         (fun d => HelixClip.mk d sampleClient)
                       cursor := sampleResp.pagination.cursor }
       ∧ (sampleResp.data.map (fun d => HelixClip.mk d sampleClient)).length
         = sampleResp.data.length) :=
  ⟨rfl, getClips_single_get_mapping sampleClient sampleFilter sampleResp rfl⟩

/-- Claim C7: `createClip` issues exactly one POST request to the clips
resource, whose query carries the broadcaster ID under `broadcaster_id` and
the (defaulted) delay flag in string form under `has_delay`. -/
theorem createClip_single_post {ε : Type} (c : TwitchClient ε)
    (params : HelixClipCreateParams) :
    (createClip c params).1 = [createClipRequest params]
    ∧ (createClipRequest params).method = "POST"
    ∧ (createClipRequest params).url = "clips"
    ∧ queryLookup (createClipRequest params).query "broadcaster_id"
      = some (QueryValue.str params.channelId)
    ∧ queryLookup (createClipRequest params).query "has_delay"
      = some (QueryValue.str (toString (params.createAfterDelay.getD false))) :=
  ⟨rfl, rfl, rfl, rfl, rfl⟩

/-- Claim C10: with `createAfterDelay` omitted, the outgoing `has_delay`
query field is the string `false`; with it provided, `has_delay` is `true`
or `false` according to the given boolean. -/
theorem createClip_delay_default {ε : Type} (c : TwitchClient ε)
    (ch : String) (b : Bool) :
    ((createClip c { channelId := ch }).1.map
        (fun r => queryLookup r.query "has_delay"))
      = [some (QueryValue.str "false")]
    ∧ ((createClip c { channelId := ch, createAfterDelay := some b }).1.map
        (fun r => queryLookup r.query "has_delay"))
      = [some (QueryValue.str (if b then "true" else "false"))] := by
  refine ⟨rfl, ?_⟩
  cases b <;> rfl

/-- Claim C9: `createClip` reads `result.data[0]` without an emptiness
guard: with a non-empty data array the access is safe and yields the head's
id; with an empty data array there is no defined result (the embedded
runtime TypeError). -/
theorem createClip_unguarded_index {ε : Type} (c : TwitchClient ε)
    (params : HelixClipCreateParams) (r : HelixClipCreateResponse)
    (rest : List HelixClipCreateResponse) :
    (c.apiCallCreateClip (createClipRequest params) = Except.ok ⟨r :: rest⟩ →
       (createClip c params).2 = Except.ok r.id)
    ∧ (c.apiCallCreateClip (createClipRequest params) = Except.ok ⟨[]⟩ →
       (createClip c params).2 = Except.error ClipCallError.typeError) := by
  constructor <;> intro h <;>
    simp only [createClip, h, List.getElem?_cons_zero, List.getElem?_nil]

/-- Evaluation of `createClip_unguarded_index` on concrete clients with a
non-empty and with an empty response data array. -/
theorem createClip_unguarded_index_witness :
    (sampleClient.apiCallCreateClip (createClipRequest sampleCreateParams)
        = Except.ok ⟨[sampleCreateResponse]⟩
      ∧ (createClip sampleClient sampleCreateParams).2
        = Except.ok sampleCreateResponse.id)
    ∧ (emptyDataClient.apiCallCreateClip (createClipRequest sampleCreateParams)
        = Except.ok ⟨[]⟩
      ∧ (createClip emptyDataClient sampleCreateParams).2
        = Except.error ClipCallError.typeError) :=
  ⟨⟨rfl, (createClip_unguarded_index sampleClient sampleCreateParams
            sampleCreateResponse []).1 rfl⟩,
   ⟨rfl, (createClip_unguarded_index emptyDataClient sampleCreateParams
            sampleCreateResponse []).2 rfl⟩⟩

/-- Claim C8 as stated is false: on a dispatcher response whose data array
is empty, the create-clip dispatcher call succeeds yet `createClip` does not
succeed — it fails with a locally produced TypeError — refuting "succeed if
and only if the dispatcher call succeeds". -/
theorem dispatcher_error_iff_refuted :
    emptyDataClient.apiCallCreateClip (createClipRequest sampleCreateParams)
      = Except.ok ⟨[]⟩
    ∧ (createClip emptyDataClient sampleCreateParams).2
      = Except.error ClipCallError.typeError :=
  ⟨rfl, rfl⟩

/-- Claim C8, amended: dispatcher errors propagate unchanged (as dispatcher
errors) through both operations, `getClips` succeeds iff the dispatcher call
succeeds, and `createClip` succeeds iff the dispatcher call succeeds with a
non-empty data array. -/
theorem dispatcher_error_propagation {ε : Type} (c : TwitchClient ε)
    (params : HelixClipFilter) (cp : HelixClipCreateParams) (e : ε) :
    (c.apiCallClips (getClipsRequest params) = Except.error e →
       (getClips c params).2 = Except.error (ClipCallError.dispatch e))
    ∧ (c.apiCallCreateClip (createClipRequest cp) = Except.error e →
       (createClip c cp).2 = Except.error (ClipCallError.dispatch e))
    ∧ ((∃ res, (getClips c params).2 = Except.ok res)
        ↔ ∃ resp, c.apiCallClips (getClipsRequest params) = Except.ok resp)
    ∧ ((∃ s, (createClip c cp).2 = Except.ok s)
        ↔ ∃ result, c.apiCallCreateClip (createClipRequest cp) = Except.ok result
            ∧ result.data ≠ []) := by
  refine ⟨fun h => by simp only [getClips, h], fun h => by simp only [createClip, h],
          ?_, ?_⟩
  · cases hc : c.apiCallClips (getClipsRequest params) with
    | error e2 => simp [getClips, hc]
    | ok resp => simp [getClips, hc]
  · cases hc : c.apiCallCreateClip (createClipRequest cp) with
    | error e2 => simp [createClip, hc]
    | ok result =>
      cases hd : result.data with
      | nil => simp [createClip, hc, hd]
      | cons r rest => simp [createClip, hc, hd]

/-- Evaluation of `dispatcher_error_propagation` on a concrete failing
dispatcher. -/
theorem dispatcher_error_propagation_witness :
    errClient.apiCallClips (getClipsRequest sampleFilter) = Except.error "boom"
    ∧ (getClips errClient sampleFilter).2
      = Except.error (ClipCallError.dispatch "boom")
    ∧ (createClip errClient sampleCreateParams).2
      = Except.error (ClipCallError.dispatch "boom") :=
  ⟨rfl,
   (dispatcher_error_propagation errClient sampleFilter sampleCreateParams "boom").1 rfl,
   (dispatcher_error_propagation errClient sampleFilter sampleCreateParams
      "boom").2.1 rfl⟩

end TwitchClips
